import Mathlib

/-!
Shallow embedding of the literature-analyzer core (paper classifier and
per-genre template extraction engine), with proofs of the specified
properties.  Python strings are modelled as `List Char`; Python floats
(all values are small multiples of 0.5 and their quotients) as `ℚ`;
Python's `re` patterns are compiled by hand into a small regex AST whose
backtracking semantics mirrors `re.search` (leftmost match, lazy/greedy
quantifiers, lookahead, capture groups, `$` as end-of-string or before a
final newline, DOTALL).
-/

namespace LitAnalyzer

/-- Python's `str.strip()` whitespace set (ASCII). -/
def pyWs (c : Char) : Bool :=
  c = ' ' || c = '\t' || c = '\n' || c = '\r' || c = '\x0b' || c = '\x0c'

/-- Python `str.strip()`: drop leading and trailing whitespace. -/
def pstrip (s : List Char) : List Char :=
  ((s.dropWhile pyWs).reverse.dropWhile pyWs).reverse

/-- Python `str.lower()` (ASCII case folding, identity on CJK). -/
def plower (s : List Char) : List Char := s.map Char.toLower

/-- Regex AST covering the constructs used by the repository's patterns.
`cls` is a character class, `anyc` is `.` under DOTALL, `starL`/`starG`
are lazy/greedy Kleene star, `grp` a numbered capture group, `look` a
lookahead `(?=...)`, `eos` is `$` (no MULTILINE). -/
inductive RE where
  | eps
  | cls (p : Char → Bool)
  | anyc
  | seq (a b : RE)
  | alt (a b : RE)
  | starL (a : RE)
  | starG (a : RE)
  | grp (n : Nat) (a : RE)
  | look (a : RE)
  | eos

/-- Captures: group number paired with captured characters, most recent first. -/
abbrev Caps := List (Nat × List Char)

/-- Most recent capture of group `n`. -/
def capGet (cp : Caps) (n : Nat) : Option (List Char) :=
  (cp.find? (fun e => e.1 == n)).map Prod.snd

/-- All ways `r` can match a prefix of `s`, as (remaining suffix, captures),
in backtracking priority order (Python `re` first-match order).  `fuel`
decreases on every recursive call (structural recursion, so the function
reduces definitionally); star bodies that consume nothing are discarded,
matching Python's prohibition of empty repetitions.  Callers supply fuel
exceeding the maximal recursion depth `(size + 2) * (length + 2)`, so the
out-of-fuel answer `[]` is never reached. -/
def mall : Nat → RE → List Char → Caps → List (List Char × Caps)
  | 0, _, _, _ => []
  | f+1, r, s, cp =>
    match r with
    | .eps => [(s, cp)]
    | .cls p =>
      match s with
      | [] => []
      | c :: t => if p c then [(t, cp)] else []
    | .anyc =>
      match s with
      | [] => []
      | _ :: t => [(t, cp)]
    | .seq a b => (mall f a s cp).flatMap (fun rr => mall f b rr.1 rr.2)
    | .alt a b => mall f a s cp ++ mall f b s cp
    | .starL a =>
      (s, cp) :: ((mall f a s cp).filter (fun rr => rr.1.length < s.length)).flatMap
        (fun rr => mall f (.starL a) rr.1 rr.2)
    | .starG a =>
      (((mall f a s cp).filter (fun rr => rr.1.length < s.length)).flatMap
        (fun rr => mall f (.starG a) rr.1 rr.2)) ++ [(s, cp)]
    | .grp n a =>
      (mall f a s cp).map (fun rr => (rr.1, (n, s.take (s.length - rr.1.length)) :: rr.2))
    | .look a =>
      match mall f a s cp with
      | [] => []
      | rr :: _ => [(s, rr.2)]
    | .eos => if s.isEmpty || s == ['\n'] then [(s, cp)] else []

/-- Structural size of a pattern, used to compute sufficient fuel. -/
def reSize : RE → Nat
  | .eps => 1
  | .cls _ => 1
  | .anyc => 1
  | .eos => 1
  | .seq a b => reSize a + reSize b + 1
  | .alt a b => reSize a + reSize b + 1
  | .starL a => reSize a + 1
  | .starG a => reSize a + 1
  | .grp _ a => reSize a + 1
  | .look a => reSize a + 1

/-- Fuel amply covering every recursion path of `mall`: descending the AST
costs at most `reSize r` per consumed character plus the initial descent. -/
def reFuel (r : RE) (s : List Char) : Nat := (reSize r + 2) * (s.length + 2)

/-- `re.search`: try to match at each position left to right; on the first
position with a match, return (whole matched span, captures) of the
highest-priority match there. -/
def reSearch (r : RE) (s : List Char) : Option (List Char × Caps) :=
  match mall (reFuel r s) r s [] with
  | rr :: _ => some (s.take (s.length - rr.1.length), rr.2)
  | [] =>
    match s with
    | [] => none
    | _ :: t => reSearch r t

/-! ### Pattern-building helpers -/

/-- Literal string (already lower-cased, since all searches run with
IGNORECASE over lower-cased text). -/
def rlit (s : String) : RE := s.data.foldr (fun c r => .seq (.cls (fun d => d = c)) r) .eps

def rseq (l : List RE) : RE := l.foldr .seq .eps

/-- Never-matching regex, base of alternation lists. -/
def rfail : RE := .cls (fun _ => false)

def ralt (l : List RE) : RE :=
  match l with
  | [] => rfail
  | [a] => a
  | a :: rest => .alt a (ralt rest)

def rchar (c : Char) : RE := .cls (fun d => d = c)

/-- `[A-Z]` under IGNORECASE: any ASCII letter. -/
def asciiAlpha : RE := .cls (fun c => ('a' ≤ c && c ≤ 'z') || ('A' ≤ c && c ≤ 'Z'))

/-- `\d` / `[0-9]`. -/
def rdigit : RE := .cls (fun c => '0' ≤ c && c ≤ '9')

/-- `\s`. -/
def rws : RE := .cls pyWs

/-- `[:\s]`. -/
def colonWs : RE := .cls (fun c => c = ':' || pyWs c)

/-- `a?` (greedy option). -/
def ropt (a : RE) : RE := .alt a .eps

/-- `a+` (greedy). -/
def rplus (a : RE) : RE := .seq a (.starG a)

/-- `(.*?)` as capture group `n`. -/
def lazyGrp (n : Nat) : RE := .grp n (.starL .anyc)

/-- Lookahead `(?=\.|,|\n)`. -/
def lookPCN : RE := .look (ralt [rchar '.', rchar ',', rchar '\n'])

/-- Lookahead `(?=\.|,|\n|$)`. -/
def lookPCNE : RE := .look (ralt [rchar '.', rchar ',', rchar '\n', .eos])

/-- `\n\n`. -/
def nl2 : RE := rlit "\n\n"

/-- `\. [A-Z]` under IGNORECASE. -/
def dotSpAlpha : RE := rseq [rchar '.', rchar ' ', asciiAlpha]

/-! ### Keyword scorer (src/modules/paper_classifier.py) -/

/-- `PaperClassifier.CLINICAL_KEYWORDS`, duplicates preserved. -/
def CLINICAL_KEYWORDS : List (String × List String) := [
  ("study_design", ["randomized controlled trial", "RCT", "cohort", "case-control",
    "cross-sectional", "prospective", "retrospective", "clinical trial",
    "randomized controlled trial", "cohort study", "case-control study", "cross-sectional study"]),
  ("participants", ["patients", "participants", "subjects", "n =", "patients with",
    "patients", "subjects", "study subjects"]),
  ("intervention", ["treatment", "intervention", "therapy", "drug", "medication",
    "surgery", "procedure", "treatment", "intervention", "drug", "surgery"]),
  ("outcomes", ["outcome", "endpoint", "efficacy", "safety", "effectiveness",
    "outcome", "endpoint", "efficacy", "safety"]),
  ("statistics", ["p-value", "confidence interval", "odds ratio", "hazard ratio",
    "95% CI", "P <", "P =", "p<", "confidence interval", "odds ratio"])]

/-- `PaperClassifier.CASE_KEYWORDS`. -/
def CASE_KEYWORDS : List (String × List String) := [
  ("case_report", ["case report", "case presentation", "case study", "case report",
    "case study", "case report"]),
  ("patient_info", ["patient was", "patient presented with", "patient developed",
    "patient", "years old", "year old", "male", "female"]),
  ("clinical_features", ["presented with", "complained of", "diagnosed with",
    "presented with", "chief complaint", "diagnosis"]),
  ("diagnosis", ["diagnosis", "diagnosed", "confirmed by", "diagnosis", "diagnosed", "confirmed"]),
  ("treatment_outcome", ["treatment", "therapy", "outcome", "follow-up",
    "treatment", "efficacy", "outcome", "follow-up"])]

/-- `PaperClassifier.BASIC_KEYWORDS`. -/
def BASIC_KEYWORDS : List (String × List String) := [
  ("methods", ["methodology", "experiment", "cell culture", "mice", "rats",
    "methods", "experiment", "cell culture", "mice", "rats"]),
  ("molecular", ["gene", "protein", "expression", "pathway", "mechanism",
    "gene", "protein", "expression", "pathway", "mechanism"]),
  ("results_data", ["increased", "decreased", "significant", "data show",
    "increased", "decreased", "significant", "data show"]),
  ("biological", ["biological", "molecular", "cellular", "biochemical",
    "biological", "molecular", "cellular", "biochemical"])]

/-- Substring occurrence test (`needle` occurs contiguously in `hay`). -/
def occursIn (needle : List Char) (hay : List Char) : Bool :=
  needle.isPrefixOf hay ||
    match hay with
    | [] => false
    | _ :: t => occursIn needle t

/-- One keyword matcher hit: the keyword (compiled with IGNORECASE) occurs
somewhere in the lower-cased text.  Every keyword is a literal (no regex
metacharacters), so this is case-insensitive substring search. -/
def kwHit (kw : String) (tl : List Char) : Bool := occursIn (plower kw.data) tl

/-- Number of a category's matchers that find at least one occurrence. -/
def categoryHits (kws : List String) (tl : List Char) : Nat :=
  (kws.filter (fun kw => kwHit kw tl)).length

/-- `PaperClassifier._get_category_weight` (dict lookup with default 1.0). -/
def getCategoryWeight (category : String) : ℚ :=
  if category = "study_design" then 3
  else if category = "participants" then 5/2
  else if category = "intervention" then 5/2
  else if category = "outcomes" then 2
  else if category = "statistics" then 3/2
  else if category = "case_report" then 3
  else if category = "patient_info" then 5/2
  else if category = "clinical_features" then 2
  else if category = "diagnosis" then 5/2
  else if category = "treatment_outcome" then 2
  else if category = "methods" then 5/2
  else if category = "molecular" then 2
  else if category = "results_data" then 3/2
  else if category = "biological" then 2
  else 1

/-- `PaperClassifier._calculate_score`. -/
def calculateScore (tbl : List (String × List String)) (text : List Char) : ℚ :=
  let tl := plower text
  (tbl.map (fun ckw => (categoryHits ckw.2 tl : ℚ) * getCategoryWeight ckw.1)).sum

/-- Python `max(scores, key=scores.get)`: first maximal element in
iteration order (a later element replaces the current best only when
strictly greater). -/
def argmaxFirst (best : String × ℚ) : List (String × ℚ) → String × ℚ
  | [] => best
  | x :: xs => argmaxFirst (if x.2 > best.2 then x else best) xs

/-- `PaperClassifier.classify`. -/
def classify (text : List Char) : String × ℚ :=
  let clinical_score := calculateScore CLINICAL_KEYWORDS text
  let case_score := calculateScore CASE_KEYWORDS text
  let basic_score := calculateScore BASIC_KEYWORDS text
  let total_score := clinical_score + case_score + basic_score
  if total_score = 0 then ("basic_research", 1/2)
  else
    let m := argmaxFirst ("clinical_research", clinical_score)
      [("case_report", case_score), ("basic_research", basic_score)]
    (m.1, m.2 / total_score)

/-- Spec-side restatement of the classification algorithm: default on zero
total, otherwise argmax with ties broken by the fixed enumeration order
clinical_research, case_report, basic_research, confidence = winner/total. -/
def classifySpec (text : List Char) : String × ℚ :=
  let c := calculateScore CLINICAL_KEYWORDS text
  let k := calculateScore CASE_KEYWORDS text
  let b := calculateScore BASIC_KEYWORDS text
  let total := c + k + b
  if total = 0 then ("basic_research", 1/2)
  else if c ≥ k ∧ c ≥ b then ("clinical_research", c / total)
  else if k ≥ b then ("case_report", k / total)
  else ("basic_research", b / total)

/-! ### Template extraction machinery (src/templates/*.py)

Each extractor is a for-loop over an ordered pattern list: the first
pattern whose `re.search` succeeds wins; its selected group is stripped
and truncated; otherwise a fixed fallback value is produced. -/

/-- Which group the extractor reads from the winning match.  `g1` models
`match.group(1)` (totalized with the whole match; every pattern used with
`g1` has a capture group on every successful path).  It also models the
`match.group(1) if match.lastindex and match.lastindex >= 1 else
match.group(0)` idiom of the two results-extractors, since their groups
are numbered 1 only.  `g0` models `match.group(0)`. -/
inductive GSel where
  | g0
  | g1

def selVal : GSel → List Char → Caps → List Char
  | .g0, g0, _ => g0
  | .g1, g0, cp => (capGet cp 1).getD g0

/-- First pattern in the list that matches, with its match data. -/
def firstMatch : List RE → List Char → Option (List Char × Caps)
  | [], _ => none
  | p :: ps, tl =>
    match reSearch p tl with
    | some m => some m
    | none => firstMatch ps tl

/-- The shared extractor loop: first matching pattern wins, value is the
selected group stripped then truncated to `n`; `dflt` if none match. -/
def tryPatterns (sel : GSel) (ps : List RE) (n : Nat) (dflt : List Char)
    (tl : List Char) : List Char :=
  match ps with
  | [] => dflt
  | p :: rest =>
    match reSearch p tl with
    | some m => (pstrip (selVal sel m.1 m.2)).take n
    | none => tryPatterns sel rest n dflt tl

def ellipsis : List Char := "...".data

/-! #### Clinical template (src/templates/clinical_template.py) -/

def backgroundPatterns : List RE := [
  rseq [rlit "background", .starG colonWs, lazyGrp 1,
    .look (ralt [nl2, dotSpAlpha, rlit ".objective", rlit ". methods"])],
  rseq [rlit "introduction", .starG colonWs, lazyGrp 1,
    .look (ralt [nl2, dotSpAlpha, rlit ".objective"])],
  rseq [rlit "background", .starG colonWs, lazyGrp 1,
    .look (ralt [nl2, rlit "objective"])]]

def objectivePatterns : List RE := [
  rseq [rlit "objective", .starG colonWs, lazyGrp 1,
    .look (ralt [nl2, dotSpAlpha, rlit ". methods", rlit ".participants"])],
  rseq [rlit "aim", .starG colonWs, lazyGrp 1, .look (ralt [nl2, dotSpAlpha])],
  rseq [rlit "objective", .starG colonWs, lazyGrp 1, .look (ralt [nl2, rlit "methods"])],
  rseq [rlit "to ", ralt [rlit "investigate", rlit "evaluate", rlit "assess", rlit "determine"],
    rlit " ", lazyGrp 1, lookPCN]]

def methodsCPatterns : List RE := [
  rseq [rlit "methods", .starG colonWs, lazyGrp 1,
    .look (ralt [nl2, dotSpAlpha, rlit ".participants", rlit ". intervention"])],
  rseq [rlit "methodology", .starG colonWs, lazyGrp 1, .look (ralt [nl2, dotSpAlpha])],
  rseq [rlit "研究方法", .starG colonWs, lazyGrp 1, .look (ralt [nl2, rlit "participants"])],
  rseq [ralt [rlit "we conducted", rlit "this was"], rlit " ", lazyGrp 1,
    ralt [rlit "study", rlit "trial"], lookPCN]]

def participantsPatterns : List RE := [
  rseq [rlit "participants", .starG colonWs, lazyGrp 1,
    .look (ralt [nl2, dotSpAlpha, rlit ". intervention", rlit ". outcomes"])],
  rseq [rlit "study population", .starG colonWs, lazyGrp 1, .look (ralt [nl2, dotSpAlpha])],
  rseq [rlit "participants", .starG colonWs, lazyGrp 1, .look (ralt [nl2, rlit "intervention"])],
  rseq [ralt [rlit "patients", rlit "participants"], rlit " ",
    ralt [rlit "with", rlit "aged", rlit "n ="], rlit " ", lazyGrp 1, lookPCN],
  rseq [.grp 1 (rplus rdigit), rlit " patient", ropt (rchar 's'), rlit " ",
    .grp 2 (.starL .anyc), lookPCN]]

def interventionPatterns : List RE := [
  rseq [rlit "intervention", .starG colonWs, lazyGrp 1,
    .look (ralt [nl2, dotSpAlpha, rlit ". outcomes", rlit ". results"])],
  rseq [rlit "treatment", .starG colonWs, lazyGrp 1,
    .look (ralt [nl2, dotSpAlpha, rlit ". outcomes"])],
  rseq [rlit "intervention", .starG colonWs, lazyGrp 1, .look (ralt [nl2, rlit "outcomes"])],
  rseq [ralt [rlit "treatment", rlit "intervention"], rlit " ",
    ralt [rlit "with", rlit "using", rlit "consisted of"], rlit " ", lazyGrp 1, lookPCN]]

def outcomesPatterns : List RE := [
  rseq [rlit "outcomes", .starG colonWs, lazyGrp 1,
    .look (ralt [nl2, dotSpAlpha, rlit ". results", rlit ". conclusion"])],
  rseq [rlit "primary outcome", .starG colonWs, lazyGrp 1, .look (ralt [nl2, dotSpAlpha])],
  rseq [rlit "outcomes", .starG colonWs, lazyGrp 1, .look (ralt [nl2, rlit "results"])],
  rseq [ralt [rlit "primary", rlit "main"], rlit " ", ralt [rlit "outcome", rlit "endpoint"],
    rlit " ", ralt [rlit "was", rlit "were"], rlit " ", lazyGrp 1, lookPCN]]

/-- `(p\s*[<=>]\s*0\.\d+.*?)` -/
def pvaluePat : RE :=
  .grp 1 (rseq [rchar 'p', .starG rws, .cls (fun c => c = '<' || c = '=' || c = '>'),
    .starG rws, rchar '0', rchar '.', rplus rdigit, .starL .anyc])

def resultsCPatterns : List RE := [
  rseq [rlit "results", .starG colonWs, lazyGrp 1,
    .look (ralt [nl2, dotSpAlpha, rlit ". conclusion", rlit ". interpretation"])],
  rseq [rlit "results", .starG colonWs, lazyGrp 1, .look (ralt [nl2, rlit "结论"])],
  rseq [ralt [rlit "we found", rlit "results show", rlit "showed"], rlit " ", lazyGrp 1, lookPCN],
  rseq [pvaluePat, lookPCN]]

def conclusionCPatterns : List RE := [
  rseq [rlit "conclusion", .starG colonWs, lazyGrp 1,
    .look (ralt [nl2, dotSpAlpha, rlit ". interpretation", .eos])],
  rseq [rlit "interpretation", .starG colonWs, lazyGrp 1, .look (ralt [nl2, dotSpAlpha, .eos])],
  rseq [rlit "结论", .starG colonWs, lazyGrp 1, .look (ralt [nl2, .eos])],
  rseq [ralt [rlit "in conclusion", rlit "these findings"], rlit " ", lazyGrp 1, lookPCNE]]

def extractBackground (text tl : List Char) : List Char :=
  tryPatterns .g1 backgroundPatterns 500 (pstrip (text.take 200) ++ ellipsis) tl

def extractObjective (_text tl : List Char) : List Char :=
  tryPatterns .g1 objectivePatterns 300 "Objective not clearly stated".data tl

def extractMethodsC (_text tl : List Char) : List Char :=
  tryPatterns .g1 methodsCPatterns 500 "Methods not clearly stated".data tl

def extractParticipants (_text tl : List Char) : List Char :=
  tryPatterns .g0 participantsPatterns 400 "Participants information not clearly stated".data tl

def extractIntervention (_text tl : List Char) : List Char :=
  tryPatterns .g1 interventionPatterns 400 "Intervention not clearly stated".data tl

def extractOutcomes (_text tl : List Char) : List Char :=
  tryPatterns .g1 outcomesPatterns 400 "Outcomes not clearly stated".data tl

def extractResultsC (_text tl : List Char) : List Char :=
  tryPatterns .g1 resultsCPatterns 600 "Results not clearly stated".data tl

def extractConclusionC (_text tl : List Char) : List Char :=
  tryPatterns .g1 conclusionCPatterns 400 "Conclusion not clearly stated".data tl

/-- `ClinicalResearchTemplate.extract`'s modules dict. -/
def clinicalModules (text : List Char) : List (String × List Char) :=
  let tl := plower text
  [("background", extractBackground text tl),
   ("objective", extractObjective text tl),
   ("methods", extractMethodsC text tl),
   ("participants", extractParticipants text tl),
   ("intervention", extractIntervention text tl),
   ("outcomes", extractOutcomes text tl),
   ("results", extractResultsC text tl),
   ("conclusion", extractConclusionC text tl)]

def clinicalMODULES : List (String × String) := [
  ("background", "Background"), ("objective", "Objective"), ("methods", "Methods"),
  ("participants", "Participants"), ("intervention", "Intervention"),
  ("outcomes", "Outcomes"), ("results", "Results"), ("conclusion", "Conclusion")]

/-! #### Case-report template (src/templates/case_template.py) -/

/-- `[- ]`. -/
def dashSp : RE := .cls (fun c => c = '-' || c = ' ')

def caseSummaryPatterns : List RE := [
  rseq [rlit "case report", .starG colonWs, lazyGrp 1,
    .look (ralt [nl2, dotSpAlpha, rlit ". clinical"])],
  rseq [rlit "case presentation", .starG colonWs, lazyGrp 1,
    .look (ralt [nl2, dotSpAlpha, rlit ". diagnosis"])],
  rseq [rlit "病例概述", .starG colonWs, lazyGrp 1, .look (ralt [nl2, rlit "临床表现"])],
  rseq [ralt [rlit "we report", rlit "this case"], rlit " ", lazyGrp 1, lookPCN],
  rseq [rlit "a ", ralt [rseq [rplus rdigit, rlit "-year-old"], rlit "患者"],
    rlit " ", lazyGrp 1, lookPCN]]

def clinicalPresentationPatterns : List RE := [
  rseq [rlit "clinical presentation", .starG colonWs, lazyGrp 1,
    .look (ralt [nl2, dotSpAlpha, rlit ". diagnosis", rlit ". treatment"])],
  rseq [rlit "presentation", .starG colonWs, lazyGrp 1,
    .look (ralt [nl2, dotSpAlpha, rlit ". diagnosis"])],
  rseq [rlit "临床表现", .starG colonWs, lazyGrp 1, .look (ralt [nl2, rlit "诊断过程"])],
  rseq [ralt [rlit "presented with", rlit "complained of", rlit "chief complaint"],
    rlit " ", lazyGrp 1, lookPCN],
  rseq [ralt [rlit "主诉", rlit "现病史", rlit "症状"], .starG colonWs, lazyGrp 1,
    .look (ralt [nl2, rlit "诊断"])]]

def diagnosisPatterns : List RE := [
  rseq [rlit "diagnosis", .starG colonWs, lazyGrp 1,
    .look (ralt [nl2, dotSpAlpha, rlit ". treatment", rlit ". outcome"])],
  rseq [rlit "diagnostic", .starG colonWs, lazyGrp 1,
    .look (ralt [nl2, dotSpAlpha, rlit ". treatment"])],
  rseq [rlit "诊断过程", .starG colonWs, lazyGrp 1, .look (ralt [nl2, rlit "治疗方案"])],
  rseq [ralt [rlit "diagnosed with", rlit "diagnosis was", rlit "confirmed by"],
    rlit " ", lazyGrp 1, lookPCN],
  rseq [ralt [rlit "检查结果", rlit "实验室检查", rlit "影像学"], .starG colonWs, lazyGrp 1,
    .look (ralt [nl2, rlit "治疗"])]]

def treatmentPatterns : List RE := [
  rseq [rlit "treatment", .starG colonWs, lazyGrp 1,
    .look (ralt [nl2, dotSpAlpha, rlit ". outcome", rlit ". follow-up"])],
  rseq [rlit "management", .starG colonWs, lazyGrp 1,
    .look (ralt [nl2, dotSpAlpha, rlit ". outcome"])],
  rseq [rlit "治疗方案", .starG colonWs, lazyGrp 1, .look (ralt [nl2, rlit "治疗结果"])],
  rseq [ralt [rlit "treated with", rlit "management included", rlit "therapy consisted of"],
    rlit " ", lazyGrp 1, lookPCN],
  rseq [ralt [rlit "治疗", rlit "用药", rlit "手术"], .starG colonWs, lazyGrp 1,
    .look (ralt [nl2, rlit "结果"])]]

def outcomePatterns : List RE := [
  rseq [rlit "outcome", .starG colonWs, lazyGrp 1, .look (ralt [nl2, dotSpAlpha, .eos])],
  rseq [rlit "follow", ropt dashSp, rlit "up", .starG colonWs, lazyGrp 1,
    .look (ralt [nl2, dotSpAlpha, .eos])],
  rseq [rlit "治疗结果", .starG colonWs, lazyGrp 1, .look (ralt [nl2, .eos])],
  rseq [ralt [rlit "outcome was",
      rseq [rlit "patient ", ralt [rlit "recovered", rlit "improved", rlit "deteriorated"]]],
    rlit " ", lazyGrp 1, lookPCN],
  rseq [ralt [rlit "结果", rlit "预后", rlit "随访"], .starG colonWs, lazyGrp 1,
    .look (ralt [nl2, .eos])]]

def patientInfoPatterns : List RE := [
  rseq [.grp 1 (rseq [rplus rdigit, rlit "-year-old ",
    ralt [rlit "male", rlit "female", rlit "man", rlit "woman"], .starL .anyc]), lookPCN],
  rseq [.grp 1 (rseq [rlit "患者", .starL .anyc, rlit "年", .starL .anyc, rlit "岁",
    .starL .anyc]), lookPCN],
  rseq [.grp 1 (rseq [rlit "a ", rplus rdigit, rlit " year old ", .starL .anyc]), lookPCN]]

/-- `CaseReportTemplate._extract_patient_info` (searches `text.lower()`,
returns the empty string when nothing matches). -/
def extractPatientInfo (text : List Char) : List Char :=
  tryPatterns .g1 patientInfoPatterns 300 [] (plower text)

/-- `CaseReportTemplate._extract_case_summary`: pattern cascade, then the
patient-info pattern set, then the sentinel. -/
def extractCaseSummary (text tl : List Char) : List Char :=
  tryPatterns .g1 caseSummaryPatterns 500
    (let patient_info := extractPatientInfo text
     if patient_info.isEmpty then "未明确提及病例概述".data else patient_info) tl

def extractClinicalPresentation (_text tl : List Char) : List Char :=
  tryPatterns .g1 clinicalPresentationPatterns 500 "未明确提及临床表现".data tl

def extractDiagnosis (_text tl : List Char) : List Char :=
  tryPatterns .g1 diagnosisPatterns 500 "未明确提及诊断过程".data tl

def extractTreatment (_text tl : List Char) : List Char :=
  tryPatterns .g1 treatmentPatterns 500 "未明确提及治疗方案".data tl

def extractOutcome (_text tl : List Char) : List Char :=
  tryPatterns .g1 outcomePatterns 500 "未明确提及治疗结果".data tl

/-- `CaseReportTemplate.extract`'s modules dict. -/
def caseModules (text : List Char) : List (String × List Char) :=
  let tl := plower text
  [("case_summary", extractCaseSummary text tl),
   ("clinical_presentation", extractClinicalPresentation text tl),
   ("diagnosis", extractDiagnosis text tl),
   ("treatment", extractTreatment text tl),
   ("outcome", extractOutcome text tl)]

def caseMODULES : List (String × String) := [
  ("case_summary", "病例概述"), ("clinical_presentation", "临床表现"),
  ("diagnosis", "诊断过程"), ("treatment", "治疗方案"), ("outcome", "治疗结果")]

/-! #### Basic-research template (src/templates/basic_template.py) -/

def sciQuestionPatterns : List RE := [
  rseq [ralt [rlit "background", rlit "introduction"], .starG colonWs, lazyGrp 1,
    .look (ralt [nl2, dotSpAlpha, rlit ". methods", rlit ". objective"])],
  rseq [ralt [rlit "scientific question", rlit "research question"], .starG colonWs,
    lazyGrp 1, .look (ralt [nl2, dotSpAlpha])],
  rseq [rlit "科学问题", .starG colonWs, lazyGrp 1, .look (ralt [nl2, rlit "研究方法"])],
  rseq [ralt [rlit "we sought to", rlit "we aimed to", rlit "the purpose was"],
    rlit " ", lazyGrp 1, lookPCN],
  rseq [ralt [rlit "however", rlit "然而", rlit "但是"], rlit " ", lazyGrp 1, lookPCN],
  rseq [rlit "研究", .starL .anyc, ralt [rlit "目的", rlit "意义", rlit "价值"],
    rlit " ", lazyGrp 1, lookPCN]]

def gapPatterns : List RE := [
  rseq [ralt [rlit "however", rlit "然而"], rlit " ", lazyGrp 1,
    ralt [rlit "remains", rlit "仍需", rlit "仍待"], rlit " ", .grp 2 (.starL .anyc), lookPCN],
  rseq [ralt [rlit "gaps", rlit "空白"], rlit " ", ralt [rlit "in", rlit "存在"],
    rlit " ", lazyGrp 1, lookPCN]]

def researchMethodPatterns : List RE := [
  rseq [rlit "methods", .starG colonWs, lazyGrp 1,
    .look (ralt [nl2, dotSpAlpha, rlit ". results", rlit ". conclusion"])],
  rseq [rlit "methodology", .starG colonWs, lazyGrp 1,
    .look (ralt [nl2, dotSpAlpha, rlit ". results"])],
  rseq [rlit "研究方法", .starG colonWs, lazyGrp 1, .look (ralt [nl2, rlit "results"])],
  rseq [rlit "we ", ralt [rlit "used", rlit "performed", rlit "conducted", rlit "measured"],
    rlit " ", lazyGrp 1, lookPCN],
  rseq [ralt [rlit "cell culture", rlit "western blot", rlit "qpcr", rlit "mice", rlit "rat"],
    rlit " ", lazyGrp 1, lookPCN],
  rseq [ralt [rlit "实验方法", rlit "实验设计"], .starG colonWs, lazyGrp 1,
    .look (ralt [nl2, rlit "结果"])]]

def resultsBPatterns : List RE := [
  rseq [rlit "results", .starG colonWs, lazyGrp 1,
    .look (ralt [nl2, dotSpAlpha, rlit ". conclusion", rlit ". discussion"])],
  rseq [rlit "results", .starG colonWs, lazyGrp 1, .look (ralt [nl2, rlit "conclusion"])],
  rseq [ralt [rlit "we found", rlit "results show", rlit "showed", rlit "found that"],
    rlit " ", lazyGrp 1, lookPCN],
  rseq [ralt [rlit "significant", rlit "increased", rlit "decreased", rlit "enhanced",
    rlit "reduced"], rlit " ", lazyGrp 1, lookPCN],
  rseq [ralt [rlit "expression", rlit "levels", rlit "activity"], rlit " ",
    ralt [rlit "of", rlit "were"], rlit " ", lazyGrp 1, lookPCN],
  rseq [pvaluePat, lookPCN]]

def conclusionBPatterns : List RE := [
  rseq [rlit "conclusion", .starG colonWs, lazyGrp 1,
    .look (ralt [nl2, dotSpAlpha, rlit ". discussion", .eos])],
  rseq [rlit "discussion", .starG colonWs, lazyGrp 1, .look (ralt [nl2, dotSpAlpha, .eos])],
  rseq [rlit "conclusion", .starG colonWs, lazyGrp 1, .look (ralt [nl2, .eos])],
  rseq [ralt [rlit "in conclusion", rlit "these findings", rlit "demonstrate that",
    rlit "indicates that"], rlit " ", lazyGrp 1, lookPCNE],
  rseq [ralt [rlit "consequently", rlit "therefore", rlit "thus"], rlit " ", lazyGrp 1,
    lookPCNE]]

def mechanismPatterns : List RE := [
  rseq [rlit "mechanism", .starG colonWs, lazyGrp 1,
    .look (ralt [nl2, dotSpAlpha, rlit ". conclusion", .eos])],
  rseq [ralt [rlit "mechanism of action", rlit "pathway", rlit "signaling"], .starG colonWs,
    lazyGrp 1, .look (ralt [nl2, dotSpAlpha])],
  rseq [rlit "作用机制", .starG colonWs, lazyGrp 1, .look (ralt [nl2, rlit "conclusion"])],
  rseq [ralt [rlit "through", rlit "via", rlit "by"], rlit " ", lazyGrp 1,
    ralt [rlit "pathway", rlit "mechanism", rlit "process"], rlit " ",
    .grp 2 (.starL .anyc), lookPCN],
  rseq [ralt [rlit "regulates", rlit "activates", rlit "inhibits", rlit "mediates"],
    rlit " ", lazyGrp 1, lookPCN],
  rseq [ralt [rlit "分子机制", rlit "信号通路", rlit "调控机制"], .starG colonWs, lazyGrp 1,
    .look (ralt [nl2, rlit "结论"])]]

def interactionPatterns : List RE := [
  rseq [ralt [rlit "interaction", rlit "相互作用", rlit "结合"], rlit " ",
    ralt [rlit "between", rlit "between"], rlit " ", lazyGrp 1, lookPCN],
  rseq [ralt [rseq [rlit "up", ropt dashSp, rlit "regulation"],
      rseq [rlit "down", ropt dashSp, rlit "regulation"], rlit "上调", rlit "下调"],
    rlit " ", lazyGrp 1, lookPCN]]

/-- `BasicResearchTemplate._extract_scientific_question`: primary cascade,
then the gap-pattern cascade (which reads `match.group(0)`), then sentinel. -/
def extractSciQuestion (_text tl : List Char) : List Char :=
  tryPatterns .g1 sciQuestionPatterns 400
    (tryPatterns .g0 gapPatterns 400 "Scientific question not clearly stated".data tl) tl

def extractResearchMethod (_text tl : List Char) : List Char :=
  tryPatterns .g1 researchMethodPatterns 500 "Methods not clearly stated".data tl

def extractResultsB (_text tl : List Char) : List Char :=
  tryPatterns .g1 resultsBPatterns 600 "Results not clearly stated".data tl

def extractConclusionB (_text tl : List Char) : List Char :=
  tryPatterns .g1 conclusionBPatterns 500 "Conclusion not clearly stated".data tl

/-- `BasicResearchTemplate._extract_mechanism`: primary cascade, then the
interaction-pattern cascade (which reads `match.group(0)`), then sentinel. -/
def extractMechanism (_text tl : List Char) : List Char :=
  tryPatterns .g1 mechanismPatterns 500
    (tryPatterns .g0 interactionPatterns 500 "Mechanism not clearly stated".data tl) tl

/-- `BasicResearchTemplate.extract`'s modules dict. -/
def basicModules (text : List Char) : List (String × List Char) :=
  let tl := plower text
  [("scientific_question", extractSciQuestion text tl),
   ("research_method", extractResearchMethod text tl),
   ("results", extractResultsB text tl),
   ("conclusion", extractConclusionB text tl),
   ("mechanism", extractMechanism text tl)]

def basicMODULES : List (String × String) := [
  ("scientific_question", "科学问题"), ("research_method", "研究方法"),
  ("results", "results"), ("conclusion", "conclusion"), ("mechanism", "作用机制")]

/-! #### Coordinator (src/modules/info_extractor.py) -/

/-- `InfoExtractor.get_template_modules`: the registered template's MODULES
mapping, or the empty mapping for an unregistered genre name. -/
def getTemplateModules (paper_type : String) : List (String × String) :=
  if paper_type = "clinical_research" then clinicalMODULES
  else if paper_type = "case_report" then caseMODULES
  else if paper_type = "basic_research" then basicMODULES
  else []

/-- The registered template's field extraction, `none` for an unregistered
genre name. -/
def templateExtract (paper_type : String) (text : List Char) :
    Option (List (String × List Char)) :=
  if paper_type = "clinical_research" then some (clinicalModules text)
  else if paper_type = "case_report" then some (caseModules text)
  else if paper_type = "basic_research" then some (basicModules text)
  else none

/-- `InfoExtractor.extract` (metadata passthrough omitted): classify, then
run the registered template, raising ValueError for an unregistered type. -/
def infoExtract (text : List Char) :
    Except String (String × List (String × List Char) × ℚ) :=
  let cls := classify text
  match templateExtract cls.1 text with
  | none => .error ("Unsupported paper type: " ++ cls.1)
  | some modules => .ok (cls.1, modules, cls.2)

/-! ### Spec-side definitions

These follow the specification's words, to be compared with the
source-derived definitions above. -/

/-- Whether a pattern contains a capture group (syntactic). -/
def hasGroup : RE → Bool
  | .eps => false
  | .cls _ => false
  | .anyc => false
  | .eos => false
  | .seq a b => hasGroup a || hasGroup b
  | .alt a b => hasGroup a || hasGroup b
  | .starL a => hasGroup a
  | .starG a => hasGroup a
  | .grp _ _ => true
  | .look a => hasGroup a

/-- Spec §4.3's field pipeline: rules tried in declared order, first match
wins; if the winning rule has a capture group use group 1's content, else
the whole match; strip; truncate. -/
def tryPatternsSpec (ps : List RE) (n : Nat) (dflt tl : List Char) : List Char :=
  match ps with
  | [] => dflt
  | p :: rest =>
    match reSearch p tl with
    | some m =>
      (pstrip (if hasGroup p then (capGet m.2 1).getD m.1 else m.1)).take n
    | none => tryPatternsSpec rest n dflt tl

/-- Amended pipeline for the exceptions: the whole match is used
regardless of capture groups, then stripped and truncated. -/
def tryPatternsWholeSpec (ps : List RE) (n : Nat) (dflt tl : List Char) : List Char :=
  match ps with
  | [] => dflt
  | p :: rest =>
    match reSearch p tl with
    | some m => (pstrip m.1).take n
    | none => tryPatternsWholeSpec rest n dflt tl

/-- Spec §4.3's per-genre field schemas. -/
def genreFieldNames (g : String) : List String :=
  if g = "clinical_research" then
    ["background", "objective", "methods", "participants", "intervention",
     "outcomes", "results", "conclusion"]
  else if g = "case_report" then
    ["case_summary", "clinical_presentation", "diagnosis", "treatment", "outcome"]
  else if g = "basic_research" then
    ["scientific_question", "research_method", "results", "conclusion", "mechanism"]
  else []

/-- Claimed per-field maximum lengths, clinical genre. -/
def clinicalMaxLen (f : String) : Nat :=
  if f = "background" then 500 else if f = "objective" then 300
  else if f = "methods" then 500 else if f = "participants" then 400
  else if f = "intervention" then 400 else if f = "outcomes" then 400
  else if f = "results" then 600 else if f = "conclusion" then 400 else 0

/-- Claimed per-field maximum lengths, basic genre. -/
def basicMaxLen (f : String) : Nat :=
  if f = "scientific_question" then 400 else if f = "research_method" then 500
  else if f = "results" then 600 else if f = "conclusion" then 500
  else if f = "mechanism" then 500 else 0

/-- Count of a category's matchers (looked up from a keyword table) that
hit the lower-cased text, as a rational. -/
def catCnt (tbl : List (String × List String)) (c : String) (text : List Char) : ℚ :=
  categoryHits ((tbl.lookup c).getD []) (plower text)

/-- The score the classifier assigned to a given genre name. -/
def genreScore (g : String) (text : List Char) : ℚ :=
  if g = "clinical_research" then calculateScore CLINICAL_KEYWORDS text
  else if g = "case_report" then calculateScore CASE_KEYWORDS text
  else if g = "basic_research" then calculateScore BASIC_KEYWORDS text
  else 0

/-- Sum of the three genre scores. -/
def totalScore (text : List Char) : ℚ :=
  calculateScore CLINICAL_KEYWORDS text + calculateScore CASE_KEYWORDS text
    + calculateScore BASIC_KEYWORDS text

/-! ### Supporting lemmas -/

lemma length_dropWhile_le (p : Char → Bool) (l : List Char) :
    (l.dropWhile p).length ≤ l.length := by
  induction l with
  | nil => simp
  | cons a t ih =>
    rw [List.dropWhile_cons]
    split_ifs
    · exact le_trans ih (Nat.le_succ _)
    · simp

lemma pstrip_length_le (s : List Char) : (pstrip s).length ≤ s.length := by
  unfold pstrip
  calc ((s.dropWhile pyWs).reverse.dropWhile pyWs).reverse.length
      = ((s.dropWhile pyWs).reverse.dropWhile pyWs).length := List.length_reverse _
    _ ≤ (s.dropWhile pyWs).reverse.length := length_dropWhile_le _ _
    _ = (s.dropWhile pyWs).length := List.length_reverse _
    _ ≤ s.length := length_dropWhile_le _ _

lemma length_tryPatterns_le (sel : GSel) (ps : List RE) (n : Nat) (d tl : List Char)
    (hd : d.length ≤ n) : (tryPatterns sel ps n d tl).length ≤ n := by
  induction ps with
  | nil => simp only [tryPatterns]; exact hd
  | cons p rest ih =>
    simp only [tryPatterns]
    cases reSearch p tl with
    | none => exact ih
    | some m => simp only [List.length_take]; exact min_le_left n _

lemma tryPatterns_of_none (sel : GSel) (ps : List RE) (n : Nat) (d tl : List Char)
    (h : firstMatch ps tl = none) : tryPatterns sel ps n d tl = d := by
  induction ps with
  | nil => rfl
  | cons p rest ih =>
    simp only [firstMatch] at h
    simp only [tryPatterns]
    cases hm : reSearch p tl with
    | none => exact ih (by simp only [hm] at h; exact h)
    | some m => rw [hm] at h; exact absurd h (by simp)

lemma tryPatterns_g1_eq_spec (ps : List RE) (n : Nat) (d tl : List Char)
    (h : ∀ p ∈ ps, hasGroup p = true) :
    tryPatterns .g1 ps n d tl = tryPatternsSpec ps n d tl := by
  induction ps with
  | nil => rfl
  | cons p rest ih =>
    have hp : hasGroup p = true := h p (by simp)
    simp only [tryPatterns, tryPatternsSpec, hp, if_true]
    cases reSearch p tl with
    | none => exact ih (fun q hq => h q (by simp [hq]))
    | some m => rfl

lemma tryPatterns_g0_eq_whole (ps : List RE) (n : Nat) (d tl : List Char) :
    tryPatterns .g0 ps n d tl = tryPatternsWholeSpec ps n d tl := by
  induction ps with
  | nil => rfl
  | cons p rest ih =>
    simp only [tryPatterns, tryPatternsWholeSpec]
    cases reSearch p tl with
    | none => exact ih
    | some m => rfl

lemma ite_pos {P : Prop} [Decidable P] {a b : ℚ} (ha : 0 < a) (hb : 0 < b) :
    0 < if P then a else b := by
  by_cases h : P
  · rwa [if_pos h]
  · rwa [if_neg h]

lemma getCategoryWeight_pos (c : String) : 0 < getCategoryWeight c := by
  unfold getCategoryWeight
  repeat refine ite_pos (by norm_num) ?_
  norm_num

lemma calculateScore_nonneg (tbl : List (String × List String)) (text : List Char) :
    0 ≤ calculateScore tbl text := by
  unfold calculateScore
  apply List.sum_nonneg
  intro x hx
  simp only [List.mem_map] at hx
  obtain ⟨ckw, _, rfl⟩ := hx
  exact mul_nonneg (by positivity) (le_of_lt (getCategoryWeight_pos _))

/-- Unfolding `classify` into the spec-shaped case analysis. -/
lemma classify_eq_classifySpec (text : List Char) : classify text = classifySpec text := by
  simp only [classify, classifySpec]
  set c := calculateScore CLINICAL_KEYWORDS text with hc
  set k := calculateScore CASE_KEYWORDS text with hk
  set b := calculateScore BASIC_KEYWORDS text with hb
  by_cases h : c + k + b = 0
  · simp [h]
  · simp only [if_neg h, argmaxFirst]
    rcases lt_or_le c k with h1 | h1
    · rcases lt_or_le k b with h2 | h2
      · have hck : ¬ (c ≥ k ∧ c ≥ b) := by push_neg; intro h3; linarith
        have hkb : ¬ (k ≥ b) := not_le.mpr h2
        simp [h1, h2, hck, hkb]
      · have hck : ¬ (c ≥ k ∧ c ≥ b) := by push_neg; intro h3; linarith
        simp [h1, not_lt.mpr h2, hck, h2]
    · rcases lt_or_le c b with h2 | h2
      · have hck : ¬ (c ≥ k ∧ c ≥ b) := by push_neg; intro h3; linarith
        have hkb : ¬ (k ≥ b) := by push_neg; linarith
        simp [not_lt.mpr h1, h2, hck, hkb]
      · have hck : c ≥ k ∧ c ≥ b := ⟨h1, h2⟩
        simp [not_lt.mpr h1, not_lt.mpr h2, hck]

lemma genreScore_clinical (text : List Char) :
    genreScore "clinical_research" text = calculateScore CLINICAL_KEYWORDS text := by
  simp [genreScore]

lemma genreScore_case (text : List Char) :
    genreScore "case_report" text = calculateScore CASE_KEYWORDS text := by
  simp [genreScore]

lemma genreScore_basic (text : List Char) :
    genreScore "basic_research" text = calculateScore BASIC_KEYWORDS text := by
  simp [genreScore]

/-- Case analysis of the classifier: either the zero-total default, or a
winner among the three genres whose score is maximal (hence between a
third of the total and the total). -/
lemma classify_branches (text : List Char) :
    (totalScore text = 0 ∧ classify text = ("basic_research", 1/2)) ∨
      (0 < totalScore text ∧ ∃ g,
        classify text = (g, genreScore g text / totalScore text) ∧
        0 ≤ genreScore g text ∧
        genreScore g text ≤ totalScore text ∧
        totalScore text ≤ 3 * genreScore g text ∧
        (g = "clinical_research" ∨ g = "case_report" ∨ g = "basic_research")) := by
  have hc0 := calculateScore_nonneg CLINICAL_KEYWORDS text
  have hk0 := calculateScore_nonneg CASE_KEYWORDS text
  have hb0 := calculateScore_nonneg BASIC_KEYWORDS text
  have hcl := classify_eq_classifySpec text
  set c := calculateScore CLINICAL_KEYWORDS text with hcdef
  set k := calculateScore CASE_KEYWORDS text with hkdef
  set b := calculateScore BASIC_KEYWORDS text with hbdef
  have ht : totalScore text = c + k + b := rfl
  by_cases h : c + k + b = 0
  · left
    refine ⟨by rw [ht, h], ?_⟩
    rw [hcl]
    show classifySpec text = _
    simp only [classifySpec]
    rw [← hcdef, ← hkdef, ← hbdef, if_pos h]
  · right
    have hpos : 0 < c + k + b := lt_of_le_of_ne (by linarith) (Ne.symm h)
    refine ⟨by rw [ht]; exact hpos, ?_⟩
    have hval : classify text =
        (if c ≥ k ∧ c ≥ b then ("clinical_research", c / (c + k + b))
         else if k ≥ b then ("case_report", k / (c + k + b))
         else ("basic_research", b / (c + k + b))) := by
      rw [hcl]
      show classifySpec text = _
      simp only [classifySpec]
      rw [← hcdef, ← hkdef, ← hbdef, if_neg h]
    by_cases h1 : c ≥ k ∧ c ≥ b
    · refine ⟨"clinical_research", ?_, ?_, ?_, ?_, Or.inl rfl⟩
      · rw [hval, if_pos h1, genreScore_clinical, ht, ← hcdef]
      · rw [genreScore_clinical, ← hcdef]; linarith
      · rw [genreScore_clinical, ht, ← hcdef]; linarith [h1.1, h1.2]
      · rw [genreScore_clinical, ht, ← hcdef]; linarith [h1.1, h1.2]
    · push_neg at h1
      by_cases h2 : k ≥ b
      · have hkc : c < k := by
          rcases lt_or_le c k with hlt | hle
          · exact hlt
          · exact absurd (h1 hle) (not_lt.mpr (le_trans h2 hle))
        refine ⟨"case_report", ?_, ?_, ?_, ?_, Or.inr (Or.inl rfl)⟩
        · rw [hval, if_neg ?hn, if_pos h2, genreScore_case, ht, ← hkdef]
          case hn => push_neg; intro hge; exact absurd (h1 hge) (not_lt.mpr (le_trans h2 hge))
        · rw [genreScore_case, ← hkdef]; linarith
        · rw [genreScore_case, ht, ← hkdef]; linarith
        · rw [genreScore_case, ht, ← hkdef]; linarith
      · push_neg at h2
        have hcb : c < b := by
          rcases lt_or_le c k with hlt | hle
          · linarith
          · exact h1 hle
        refine ⟨"basic_research", ?_, ?_, ?_, ?_, Or.inr (Or.inr rfl)⟩
        · rw [hval, if_neg ?hn2, if_neg (not_le.mpr h2), genreScore_basic, ht, ← hbdef]
          case hn2 => push_neg; intro hge; linarith [h1 hge]
        · rw [genreScore_basic, ← hbdef]; linarith
        · rw [genreScore_basic, ht, ← hbdef]; linarith
        · rw [genreScore_basic, ht, ← hbdef]; linarith

/-- The classifier only ever returns one of the three registered genres. -/
lemma classify_genre_mem (text : List Char) :
    (classify text).1 = "clinical_research" ∨ (classify text).1 = "case_report" ∨
      (classify text).1 = "basic_research" := by
  rcases classify_branches text with ⟨_, hcl⟩ | ⟨_, g, hcl, _, _, _, hg⟩
  · rw [hcl]; right; right; rfl
  · rw [hcl]; exact hg

lemma lookup_isSome_of_mem_fst {β : Type} :
    ∀ (l : List (String × β)) (f : String), f ∈ l.map Prod.fst →
      (l.lookup f).isSome = true
  | [], _, hf => by simp at hf
  | (kk, v) :: es, f, hf => by
    by_cases h : f = kk
    · simp [List.lookup, h]
    · have hmem : f ∈ es.map Prod.fst := by
        simp only [List.map, List.mem_cons] at hf
        rcases hf with hf | hf
        · exact absurd hf h
        · exact hf
      have hbe : (f == kk) = false := by simp [h]
      simp only [List.lookup, hbe]
      exact lookup_isSome_of_mem_fst es f hmem

lemma occursIn_nil (needle : List Char) (h : needle ≠ []) : occursIn needle [] = false := by
  cases needle with
  | nil => exact absurd rfl h
  | cons c t => simp [occursIn, List.isPrefixOf]

lemma kwHit_nil (kw : String) (h : kw.data ≠ []) : kwHit kw [] = false := by
  unfold kwHit
  apply occursIn_nil
  simpa [plower] using h

lemma categoryHits_nil (kws : List String) (h : ∀ kw ∈ kws, kw.data ≠ []) :
    categoryHits kws [] = 0 := by
  unfold categoryHits
  have hf : kws.filter (fun kw => kwHit kw []) = [] := by
    rw [List.filter_eq_nil_iff]
    intro kw hk
    simp [kwHit_nil kw (h kw hk)]
  rw [hf]
  rfl

lemma calculateScore_nil (tbl : List (String × List String))
    (h : ∀ e ∈ tbl, ∀ kw ∈ e.2, kw.data ≠ []) : calculateScore tbl [] = 0 := by
  simp only [calculateScore]
  apply List.sum_eq_zero
  intro x hx
  obtain ⟨ckw, hmem, rfl⟩ := List.mem_map.mp hx
  rw [show plower [] = [] from rfl, categoryHits_nil ckw.2 (h ckw hmem)]
  simp

/-- The empty string hits no keyword, so every score is zero and the
classifier takes the explicit default path. -/
lemma classify_nil : classify [] = ("basic_research", 1/2) := by
  have h1 : calculateScore CLINICAL_KEYWORDS [] = 0 := calculateScore_nil _ (by decide)
  have h2 : calculateScore CASE_KEYWORDS [] = 0 := calculateScore_nil _ (by decide)
  have h3 : calculateScore BASIC_KEYWORDS [] = 0 := calculateScore_nil _ (by decide)
  simp [classify, h1, h2, h3]

lemma le_calculateScore_of_mem (tbl : List (String × List String))
    (e : String × List String) (text : List Char) (he : e ∈ tbl) :
    (categoryHits e.2 (plower text) : ℚ) * getCategoryWeight e.1 ≤ calculateScore tbl text := by
  simp only [calculateScore]
  refine List.single_le_sum (fun x hx => ?_) _ (List.mem_map_of_mem _ he)
  obtain ⟨ckw, _, rfl⟩ := List.mem_map.mp hx
  exact mul_nonneg (by positivity) (le_of_lt (getCategoryWeight_pos _))

lemma totalScore_gene_pos : 0 < totalScore "gene".data := by
  have hm : ("molecular", ["gene", "protein", "expression", "pathway", "mechanism",
      "gene", "protein", "expression", "pathway", "mechanism"]) ∈ BASIC_KEYWORDS := by decide
  have h1 := le_calculateScore_of_mem BASIC_KEYWORDS _ "gene".data hm
  rw [show categoryHits ["gene", "protein", "expression", "pathway", "mechanism",
      "gene", "protein", "expression", "pathway", "mechanism"] (plower "gene".data) = 2
      from rfl] at h1
  rw [show getCategoryWeight "molecular" = 2 from rfl] at h1
  have h2 := calculateScore_nonneg CLINICAL_KEYWORDS "gene".data
  have h3 := calculateScore_nonneg CASE_KEYWORDS "gene".data
  show (0:ℚ) < calculateScore CLINICAL_KEYWORDS "gene".data
    + calculateScore CASE_KEYWORDS "gene".data + calculateScore BASIC_KEYWORDS "gene".data
  push_cast at h1
  linarith

/-! ### Claim theorems -/

/-- C1: for every input text, `classify` computes the three genre scores
via the keyword scorer; if the sum is exactly zero it returns
(basic_research, 0.5); otherwise it returns the genre with maximum score,
ties broken by the enumeration order clinical_research, case_report,
basic_research, with confidence the winning score over the total. -/
theorem classify_matches_spec (text : List Char) : classify text = classifySpec text :=
  classify_eq_classifySpec text

/-- C3: each genre's score equals the sum over its categories of (number
of matchers hitting the lower-cased text) times the category's fixed
weight, with exactly the weights 3, 2.5, 2.5, 2, 1.5 (clinical), 3, 2.5,
2, 2.5, 2 (case) and 2.5, 2, 1.5, 2 (basic). -/
theorem score_is_weighted_category_sum (text : List Char) :
    (calculateScore CLINICAL_KEYWORDS text =
        catCnt CLINICAL_KEYWORDS "study_design" text * 3
      + catCnt CLINICAL_KEYWORDS "participants" text * (5/2)
      + catCnt CLINICAL_KEYWORDS "intervention" text * (5/2)
      + catCnt CLINICAL_KEYWORDS "outcomes" text * 2
      + catCnt CLINICAL_KEYWORDS "statistics" text * (3/2)) ∧
    (calculateScore CASE_KEYWORDS text =
        catCnt CASE_KEYWORDS "case_report" text * 3
      + catCnt CASE_KEYWORDS "patient_info" text * (5/2)
      + catCnt CASE_KEYWORDS "clinical_features" text * 2
      + catCnt CASE_KEYWORDS "diagnosis" text * (5/2)
      + catCnt CASE_KEYWORDS "treatment_outcome" text * 2) ∧
    (calculateScore BASIC_KEYWORDS text =
        catCnt BASIC_KEYWORDS "methods" text * (5/2)
      + catCnt BASIC_KEYWORDS "molecular" text * 2
      + catCnt BASIC_KEYWORDS "results_data" text * (3/2)
      + catCnt BASIC_KEYWORDS "biological" text * 2) := by
  refine ⟨?_, ?_, ?_⟩ <;>
    simp [calculateScore, catCnt, CLINICAL_KEYWORDS, CASE_KEYWORDS, BASIC_KEYWORDS,
      getCategoryWeight, List.lookup] <;> ring

/-- C5: the confidence is between 0 and 1, and when the total score is
strictly positive it is exactly the winning genre's score over the total. -/
theorem confidence_bounds (text : List Char) :
    0 ≤ (classify text).2 ∧ (classify text).2 ≤ 1 ∧
      (0 < totalScore text →
        (classify text).2 = genreScore (classify text).1 text / totalScore text) := by
  rcases classify_branches text with ⟨h0, hcl⟩ | ⟨hpos, g, hcl, hg0, hle, _, _⟩
  · rw [hcl]
    refine ⟨by norm_num, by norm_num, ?_⟩
    intro h'
    rw [h0] at h'
    exact absurd h' (lt_irrefl 0)
  · rw [hcl]
    exact ⟨div_nonneg hg0 (le_of_lt hpos), (div_le_one hpos).mpr hle, fun _ => rfl⟩

/-- C5 witness: at a concrete clinical-vocabulary input the total is
positive and the confidence is the exact ratio. -/
theorem confidence_bounds_witness :
    0 < totalScore "gene".data ∧
      (classify "gene".data).2 =
        genreScore (classify "gene".data).1 "gene".data / totalScore "gene".data :=
  ⟨totalScore_gene_pos, (confidence_bounds "gene".data).2.2 totalScore_gene_pos⟩

/-- C10 (implicit): the confidence is always at least one third — either
the 0.5 default, or a maximum of three non-negative scores over their sum. -/
theorem confidence_ge_one_third (text : List Char) :
    1/3 ≤ (classify text).2 := by
  rcases classify_branches text with ⟨_, hcl⟩ | ⟨hpos, g, hcl, _, _, h3, _⟩
  · rw [hcl]; norm_num
  · rw [hcl]
    show (1:ℚ)/3 ≤ genreScore g text / totalScore text
    rw [div_le_div_iff₀ (by norm_num) hpos]
    linarith

/-- C7: classify never fails and always lands in the three registered
genres (the empty string taking the zero-score default path), so the
coordinator's "Unsupported paper type" error is unreachable and extract
always returns a complete result. -/
theorem classify_total_extract_ok (text : List Char) :
    ((classify text).1 = "clinical_research" ∨ (classify text).1 = "case_report" ∨
        (classify text).1 = "basic_research") ∧
      (∃ r, infoExtract text = .ok r) ∧
      classify ([] : List Char) = ("basic_research", 1/2) := by
  refine ⟨classify_genre_mem text, ?_, classify_nil⟩
  rcases classify_genre_mem text with h | h | h
  · exact ⟨("clinical_research", clinicalModules text, (classify text).2), by
      simp [infoExtract, templateExtract, h]⟩
  · exact ⟨("case_report", caseModules text, (classify text).2), by
      simp [infoExtract, templateExtract, h]⟩
  · exact ⟨("basic_research", basicModules text, (classify text).2), by
      simp [infoExtract, templateExtract, h]⟩

/-- C2: for every text, whatever genre is chosen, extraction returns a
complete result: every declared field of the chosen genre's template (8
clinical / 5 case / 5 basic, in schema order) is present and bound to a
string value, and no declared field is omitted — including for the empty
string. -/
theorem extract_totality (text : List Char) :
    ∃ mods conf, infoExtract text = .ok ((classify text).1, mods, conf) ∧
      mods.map Prod.fst = genreFieldNames (classify text).1 ∧
      ((genreFieldNames (classify text).1).all (fun f => (mods.lookup f).isSome)) = true := by
  rcases classify_genre_mem text with h | h | h
  · refine ⟨clinicalModules text, (classify text).2, ?_, ?_, ?_⟩
    · simp [infoExtract, templateExtract, h]
    · rw [h]; rfl
    · rw [h]
      have he : (clinicalModules text).map Prod.fst = genreFieldNames "clinical_research" := rfl
      rw [List.all_eq_true]
      exact fun f hf => lookup_isSome_of_mem_fst _ f (he ▸ hf)
  · refine ⟨caseModules text, (classify text).2, ?_, ?_, ?_⟩
    · simp [infoExtract, templateExtract, h]
    · rw [h]; rfl
    · rw [h]
      have he : (caseModules text).map Prod.fst = genreFieldNames "case_report" := rfl
      rw [List.all_eq_true]
      exact fun f hf => lookup_isSome_of_mem_fst _ f (he ▸ hf)
  · refine ⟨basicModules text, (classify text).2, ?_, ?_, ?_⟩
    · simp [infoExtract, templateExtract, h]
    · rw [h]; rfl
    · rw [h]
      have he : (basicModules text).map Prod.fst = genreFieldNames "basic_research" := rfl
      rw [List.all_eq_true]
      exact fun f hf => lookup_isSome_of_mem_fst _ f (he ▸ hf)

/-- C9: the template-introspection query is pure and returns exactly each
genre's fixed field-name→label mapping — its field names agree with the
§4.3 schema and with the extraction result's field names (8/5/5 fields) —
and returns the empty mapping for unrecognized genre names. -/
theorem template_introspection (text : List Char) :
    (getTemplateModules "clinical_research").map Prod.fst = genreFieldNames "clinical_research" ∧
    (getTemplateModules "case_report").map Prod.fst = genreFieldNames "case_report" ∧
    (getTemplateModules "basic_research").map Prod.fst = genreFieldNames "basic_research" ∧
    (getTemplateModules "clinical_research").map Prod.fst = (clinicalModules text).map Prod.fst ∧
    (getTemplateModules "case_report").map Prod.fst = (caseModules text).map Prod.fst ∧
    (getTemplateModules "basic_research").map Prod.fst = (basicModules text).map Prod.fst ∧
    (getTemplateModules "clinical_research").length = 8 ∧
    (getTemplateModules "case_report").length = 5 ∧
    (getTemplateModules "basic_research").length = 5 ∧
    (∀ g : String, g ≠ "clinical_research" → g ≠ "case_report" → g ≠ "basic_research" →
      getTemplateModules g = []) := by
  refine ⟨rfl, rfl, rfl, rfl, rfl, rfl, rfl, rfl, rfl, ?_⟩
  intro g h1 h2 h3
  simp [getTemplateModules, h1, h2, h3]

/-- C9 witness: a concrete unrecognized genre name yields the empty
mapping, and the clinical mapping has its 8 fields. -/
theorem template_introspection_witness :
    getTemplateModules "foo" = [] ∧ (getTemplateModules "clinical_research").length = 8 := by
  have h := template_introspection []
  exact ⟨h.2.2.2.2.2.2.2.2.2 "foo" (by decide) (by decide) (by decide), h.2.2.2.2.2.2.1⟩

/-- C6: no extracted field value exceeds its declared per-field maximum
length (clinical: background 500, objective 300, methods 500,
participants 400, intervention 400, outcomes 400, results 600, conclusion
400; every case-report field 500; basic: scientific_question 400,
research_method 500, results 600, conclusion 500, mechanism 500). -/
theorem truncation_law (text : List Char) :
    (∀ fv ∈ clinicalModules text, (fv.2).length ≤ clinicalMaxLen fv.1) ∧
    (∀ fv ∈ caseModules text, (fv.2).length ≤ 500) ∧
    (∀ fv ∈ basicModules text, (fv.2).length ≤ basicMaxLen fv.1) := by
  have hcs : ∀ tl : List Char,
      (if (extractPatientInfo text).isEmpty then "未明确提及病例概述".data
       else extractPatientInfo text).length ≤ 500 := by
    intro _
    by_cases hpi : (extractPatientInfo text).isEmpty
    · rw [if_pos hpi]; decide
    · rw [if_neg hpi]
      exact le_trans (length_tryPatterns_le .g1 patientInfoPatterns 300 [] (plower text)
        (by simp)) (by norm_num)
  refine ⟨?_, ?_, ?_⟩
  · intro fv hm
    simp only [clinicalModules, List.mem_cons, List.not_mem_nil, or_false] at hm
    rcases hm with rfl | rfl | rfl | rfl | rfl | rfl | rfl | rfl
    · show (extractBackground text (plower text)).length ≤ 500
      apply length_tryPatterns_le
      have h1 := pstrip_length_le (text.take 200)
      have h2 : (text.take 200).length ≤ 200 := by
        simp only [List.length_take]; exact min_le_left _ _
      have h3 : ellipsis.length = 3 := rfl
      simp only [List.length_append]
      omega
    · exact length_tryPatterns_le _ _ _ _ _ (by decide)
    · exact length_tryPatterns_le _ _ _ _ _ (by decide)
    · exact length_tryPatterns_le _ _ _ _ _ (by decide)
    · exact length_tryPatterns_le _ _ _ _ _ (by decide)
    · exact length_tryPatterns_le _ _ _ _ _ (by decide)
    · exact length_tryPatterns_le _ _ _ _ _ (by decide)
    · exact length_tryPatterns_le _ _ _ _ _ (by decide)
  · intro fv hm
    simp only [caseModules, List.mem_cons, List.not_mem_nil, or_false] at hm
    rcases hm with rfl | rfl | rfl | rfl | rfl
    · show (extractCaseSummary text (plower text)).length ≤ 500
      exact length_tryPatterns_le _ _ _ _ _ (hcs (plower text))
    · exact length_tryPatterns_le _ _ _ _ _ (by decide)
    · exact length_tryPatterns_le _ _ _ _ _ (by decide)
    · exact length_tryPatterns_le _ _ _ _ _ (by decide)
    · exact length_tryPatterns_le _ _ _ _ _ (by decide)
  · intro fv hm
    simp only [basicModules, List.mem_cons, List.not_mem_nil, or_false] at hm
    rcases hm with rfl | rfl | rfl | rfl | rfl
    · show (extractSciQuestion text (plower text)).length ≤ 400
      exact length_tryPatterns_le _ _ _ _ _
        (length_tryPatterns_le .g0 gapPatterns 400 _ (plower text) (by decide))
    · exact length_tryPatterns_le _ _ _ _ _ (by decide)
    · exact length_tryPatterns_le _ _ _ _ _ (by decide)
    · exact length_tryPatterns_le _ _ _ _ _ (by decide)
    · show (extractMechanism text (plower text)).length ≤ 500
      exact length_tryPatterns_le _ _ _ _ _
        (length_tryPatterns_le .g0 interactionPatterns 500 _ (plower text) (by decide))

/-- C6 witness: the clinical background field of the empty text is a
member of the result and is within its 500-character cap. -/
theorem truncation_law_witness :
    ("background", extractBackground [] (plower [])) ∈ clinicalModules ([] : List Char) ∧
      (extractBackground [] (plower [])).length ≤ clinicalMaxLen "background" := by
  have hm : ("background", extractBackground [] (plower [])) ∈ clinicalModules ([] : List Char) := by
    simp [clinicalModules]
  exact ⟨hm, (truncation_law []).1 _ hm⟩

/-- C4 counterexample: on "participants: a. b" the first participants
rule matches with capture group 1 = "a", but the code returns the whole
match "participants: a" (`match.group(0)`), not group 1's content as the
claim states for every field. -/
theorem participants_whole_match_cex :
    extractParticipants "participants: a. b".data (plower "participants: a. b".data)
        = "participants: a".data ∧
      tryPatternsSpec participantsPatterns 400
          "Participants information not clearly stated".data
          (plower "participants: a. b".data) = "a".data ∧
      "participants: a".data ≠ "a".data :=
  ⟨by decide, by decide, by decide⟩

/-- C4 (amended): for every field, rules are tried in declared order
against the lower-cased text, the first matching rule wins, and the value
is capture group 1's content (stripped, truncated) when the rule has a
capture group and the whole match otherwise — EXCEPT that the clinical
participants field, the basic scientific_question gap-pattern fallback
cascade and the basic mechanism interaction-pattern fallback cascade use
the whole match (group 0) even though their rules have capture groups. -/
theorem field_rule_pipeline (text : List Char) :
    extractBackground text (plower text) =
        tryPatternsSpec backgroundPatterns 500 (pstrip (text.take 200) ++ ellipsis)
          (plower text) ∧
    extractObjective text (plower text) =
        tryPatternsSpec objectivePatterns 300 "Objective not clearly stated".data
          (plower text) ∧
    extractMethodsC text (plower text) =
        tryPatternsSpec methodsCPatterns 500 "Methods not clearly stated".data (plower text) ∧
    extractParticipants text (plower text) =
        tryPatternsWholeSpec participantsPatterns 400
          "Participants information not clearly stated".data (plower text) ∧
    extractIntervention text (plower text) =
        tryPatternsSpec interventionPatterns 400 "Intervention not clearly stated".data
          (plower text) ∧
    extractOutcomes text (plower text) =
        tryPatternsSpec outcomesPatterns 400 "Outcomes not clearly stated".data (plower text) ∧
    extractResultsC text (plower text) =
        tryPatternsSpec resultsCPatterns 600 "Results not clearly stated".data (plower text) ∧
    extractConclusionC text (plower text) =
        tryPatternsSpec conclusionCPatterns 400 "Conclusion not clearly stated".data
          (plower text) ∧
    extractCaseSummary text (plower text) =
        tryPatternsSpec caseSummaryPatterns 500
          (if (tryPatternsSpec patientInfoPatterns 300 [] (plower text)).isEmpty
           then "未明确提及病例概述".data
           else tryPatternsSpec patientInfoPatterns 300 [] (plower text)) (plower text) ∧
    extractClinicalPresentation text (plower text) =
        tryPatternsSpec clinicalPresentationPatterns 500 "未明确提及临床表现".data (plower text) ∧
    extractDiagnosis text (plower text) =
        tryPatternsSpec diagnosisPatterns 500 "未明确提及诊断过程".data (plower text) ∧
    extractTreatment text (plower text) =
        tryPatternsSpec treatmentPatterns 500 "未明确提及治疗方案".data (plower text) ∧
    extractOutcome text (plower text) =
        tryPatternsSpec outcomePatterns 500 "未明确提及治疗结果".data (plower text) ∧
    extractSciQuestion text (plower text) =
        tryPatternsSpec sciQuestionPatterns 400
          (tryPatternsWholeSpec gapPatterns 400 "Scientific question not clearly stated".data
            (plower text)) (plower text) ∧
    extractResearchMethod text (plower text) =
        tryPatternsSpec researchMethodPatterns 500 "Methods not clearly stated".data
          (plower text) ∧
    extractResultsB text (plower text) =
        tryPatternsSpec resultsBPatterns 600 "Results not clearly stated".data (plower text) ∧
    extractConclusionB text (plower text) =
        tryPatternsSpec conclusionBPatterns 500 "Conclusion not clearly stated".data
          (plower text) ∧
    extractMechanism text (plower text) =
        tryPatternsSpec mechanismPatterns 500
          (tryPatternsWholeSpec interactionPatterns 500 "Mechanism not clearly stated".data
            (plower text)) (plower text) := by
  refine ⟨tryPatterns_g1_eq_spec _ _ _ _ (by decide),
    tryPatterns_g1_eq_spec _ _ _ _ (by decide),
    tryPatterns_g1_eq_spec _ _ _ _ (by decide),
    tryPatterns_g0_eq_whole _ _ _ _,
    tryPatterns_g1_eq_spec _ _ _ _ (by decide),
    tryPatterns_g1_eq_spec _ _ _ _ (by decide),
    tryPatterns_g1_eq_spec _ _ _ _ (by decide),
    tryPatterns_g1_eq_spec _ _ _ _ (by decide),
    ?_, tryPatterns_g1_eq_spec _ _ _ _ (by decide),
    tryPatterns_g1_eq_spec _ _ _ _ (by decide),
    tryPatterns_g1_eq_spec _ _ _ _ (by decide),
    tryPatterns_g1_eq_spec _ _ _ _ (by decide),
    ?_, tryPatterns_g1_eq_spec _ _ _ _ (by decide),
    tryPatterns_g1_eq_spec _ _ _ _ (by decide),
    tryPatterns_g1_eq_spec _ _ _ _ (by decide), ?_⟩
  · have hpi : extractPatientInfo text = tryPatternsSpec patientInfoPatterns 300 [] (plower text) :=
      tryPatterns_g1_eq_spec _ _ _ _ (by decide)
    simp only [extractCaseSummary, hpi]
    exact tryPatterns_g1_eq_spec _ _ _ _ (by decide)
  · simp only [extractSciQuestion]
    rw [tryPatterns_g0_eq_whole]
    exact tryPatterns_g1_eq_spec _ _ _ _ (by decide)
  · simp only [extractMechanism]
    rw [tryPatterns_g0_eq_whole]
    exact tryPatterns_g1_eq_spec _ _ _ _ (by decide)

/-- C8 counterexample: on the input " x" no background pattern matches
and the code returns "x..." — the first 200 characters of the raw text
STRIPPED of whitespace plus an ellipsis — not " x..." as the claim's
"first 200 characters of the raw input text plus an ellipsis" states. -/
theorem background_fallback_strips_cex :
    extractBackground " x".data (plower " x".data) = "x...".data ∧
      " x".data.take 200 ++ ellipsis = " x...".data ∧
      "x...".data ≠ " x...".data :=
  ⟨by decide, by decide, by decide⟩

/-- C8 (amended): for the clinical background field only, when none of
its patterns match, the value is the first 200 characters of the raw
(non-lower-cased) input text, stripped of leading/trailing whitespace,
plus an ellipsis; every other field's no-match fallback is a fixed
text-independent sentinel, never a raw-text prefix. -/
theorem background_raw_fallback (text : List Char) :
    (firstMatch backgroundPatterns (plower text) = none →
        extractBackground text (plower text) = pstrip (text.take 200) ++ ellipsis) ∧
    (firstMatch objectivePatterns (plower text) = none →
        extractObjective text (plower text) = "Objective not clearly stated".data) ∧
    (firstMatch methodsCPatterns (plower text) = none →
        extractMethodsC text (plower text) = "Methods not clearly stated".data) ∧
    (firstMatch participantsPatterns (plower text) = none →
        extractParticipants text (plower text) =
          "Participants information not clearly stated".data) ∧
    (firstMatch interventionPatterns (plower text) = none →
        extractIntervention text (plower text) = "Intervention not clearly stated".data) ∧
    (firstMatch outcomesPatterns (plower text) = none →
        extractOutcomes text (plower text) = "Outcomes not clearly stated".data) ∧
    (firstMatch resultsCPatterns (plower text) = none →
        extractResultsC text (plower text) = "Results not clearly stated".data) ∧
    (firstMatch conclusionCPatterns (plower text) = none →
        extractConclusionC text (plower text) = "Conclusion not clearly stated".data) ∧
    (firstMatch caseSummaryPatterns (plower text) = none →
      firstMatch patientInfoPatterns (plower text) = none →
        extractCaseSummary text (plower text) = "未明确提及病例概述".data) ∧
    (firstMatch clinicalPresentationPatterns (plower text) = none →
        extractClinicalPresentation text (plower text) = "未明确提及临床表现".data) ∧
    (firstMatch diagnosisPatterns (plower text) = none →
        extractDiagnosis text (plower text) = "未明确提及诊断过程".data) ∧
    (firstMatch treatmentPatterns (plower text) = none →
        extractTreatment text (plower text) = "未明确提及治疗方案".data) ∧
    (firstMatch outcomePatterns (plower text) = none →
        extractOutcome text (plower text) = "未明确提及治疗结果".data) ∧
    (firstMatch sciQuestionPatterns (plower text) = none →
      firstMatch gapPatterns (plower text) = none →
        extractSciQuestion text (plower text) =
          "Scientific question not clearly stated".data) ∧
    (firstMatch researchMethodPatterns (plower text) = none →
        extractResearchMethod text (plower text) = "Methods not clearly stated".data) ∧
    (firstMatch resultsBPatterns (plower text) = none →
        extractResultsB text (plower text) = "Results not clearly stated".data) ∧
    (firstMatch conclusionBPatterns (plower text) = none →
        extractConclusionB text (plower text) = "Conclusion not clearly stated".data) ∧
    (firstMatch mechanismPatterns (plower text) = none →
      firstMatch interactionPatterns (plower text) = none →
        extractMechanism text (plower text) = "Mechanism not clearly stated".data) := by
  refine ⟨fun h => tryPatterns_of_none _ _ _ _ _ h,
    fun h => tryPatterns_of_none _ _ _ _ _ h,
    fun h => tryPatterns_of_none _ _ _ _ _ h,
    fun h => tryPatterns_of_none _ _ _ _ _ h,
    fun h => tryPatterns_of_none _ _ _ _ _ h,
    fun h => tryPatterns_of_none _ _ _ _ _ h,
    fun h => tryPatterns_of_none _ _ _ _ _ h,
    fun h => tryPatterns_of_none _ _ _ _ _ h,
    ?_,
    fun h => tryPatterns_of_none _ _ _ _ _ h,
    fun h => tryPatterns_of_none _ _ _ _ _ h,
    fun h => tryPatterns_of_none _ _ _ _ _ h,
    fun h => tryPatterns_of_none _ _ _ _ _ h,
    ?_,
    fun h => tryPatterns_of_none _ _ _ _ _ h,
    fun h => tryPatterns_of_none _ _ _ _ _ h,
    fun h => tryPatterns_of_none _ _ _ _ _ h,
    ?_⟩
  · intro h1 h2
    have hpi : extractPatientInfo text = [] := tryPatterns_of_none _ _ _ _ _ h2
    simp only [extractCaseSummary, hpi]
    rw [tryPatterns_of_none _ _ _ _ _ h1]
    rfl
  · intro h1 h2
    simp only [extractSciQuestion]
    rw [tryPatterns_of_none _ _ _ _ _ h1, tryPatterns_of_none _ _ _ _ _ h2]
  · intro h1 h2
    simp only [extractMechanism]
    rw [tryPatterns_of_none _ _ _ _ _ h1, tryPatterns_of_none _ _ _ _ _ h2]

/-- C8 witness: on "zzz" no pattern of any field matches, the background
field falls back to the stripped raw prefix plus ellipsis, and every
other field falls back to its fixed sentinel. -/
theorem background_raw_fallback_witness :
    extractBackground "zzz".data (plower "zzz".data) =
        pstrip ("zzz".data.take 200) ++ ellipsis ∧
      extractObjective "zzz".data (plower "zzz".data) = "Objective not clearly stated".data ∧
      extractMethodsC "zzz".data (plower "zzz".data) = "Methods not clearly stated".data ∧
      extractParticipants "zzz".data (plower "zzz".data) =
        "Participants information not clearly stated".data ∧
      extractIntervention "zzz".data (plower "zzz".data) =
        "Intervention not clearly stated".data ∧
      extractOutcomes "zzz".data (plower "zzz".data) = "Outcomes not clearly stated".data ∧
      extractResultsC "zzz".data (plower "zzz".data) = "Results not clearly stated".data ∧
      extractConclusionC "zzz".data (plower "zzz".data) = "Conclusion not clearly stated".data ∧
      extractCaseSummary "zzz".data (plower "zzz".data) = "未明确提及病例概述".data ∧
      extractClinicalPresentation "zzz".data (plower "zzz".data) = "未明确提及临床表现".data ∧
      extractDiagnosis "zzz".data (plower "zzz".data) = "未明确提及诊断过程".data ∧
      extractTreatment "zzz".data (plower "zzz".data) = "未明确提及治疗方案".data ∧
      extractOutcome "zzz".data (plower "zzz".data) = "未明确提及治疗结果".data ∧
      extractSciQuestion "zzz".data (plower "zzz".data) =
        "Scientific question not clearly stated".data ∧
      extractResearchMethod "zzz".data (plower "zzz".data) = "Methods not clearly stated".data ∧
      extractResultsB "zzz".data (plower "zzz".data) = "Results not clearly stated".data ∧
      extractConclusionB "zzz".data (plower "zzz".data) = "Conclusion not clearly stated".data ∧
      extractMechanism "zzz".data (plower "zzz".data) = "Mechanism not clearly stated".data := by
  obtain ⟨h1, h2, h3, h4, h5, h6, h7, h8, h9, h10, h11, h12, h13, h14, h15, h16, h17, h18⟩ :=
    background_raw_fallback "zzz".data
  exact ⟨h1 (by decide), h2 (by decide), h3 (by decide), h4 (by decide), h5 (by decide),
    h6 (by decide), h7 (by decide), h8 (by decide), h9 (by decide) (by decide),
    h10 (by decide), h11 (by decide), h12 (by decide), h13 (by decide),
    h14 (by decide) (by decide), h15 (by decide), h16 (by decide), h17 (by decide),
    h18 (by decide) (by decide)⟩

end LitAnalyzer
